import Mathlib

/-!
Verification development for the Facebook Ad Library data pipeline.

The Python sources are shallowly embedded as executable Lean definitions:

* `src/transform_raw_data.py` — `parse_ad`, `parse_ad_group`,
  `validate_and_clean_data`, `get_media_mix`, `detect_media_mix`, the
  pydantic `ValidatedAd` model (as `validateAd`), and the three
  `drop_duplicates` passes (as `dropDupBy` / `dedup_stages`, using pandas
  semantics where null keys match each other).
* `src/collect_raw_data.py` — `find_init_data_with_retries` and the data-flow
  skeleton of `collect_raw_data` (as a function of the per-attempt
  navigation/extraction outcome and of the groups captured by the response
  interceptor).
* `src/generate_report.py` — the end-date emission rule of `generate_report`
  (as `report_end_date`; `datetime.fromtimestamp(ts, tz=utc)` is represented
  by the timestamp itself).

Python dynamic features are modelled as follows: a raw field whose dict key
may be absent is an `Option`; where the raw JSON value itself may be `null`
the payload is again an `Option` (so `start_date : Option (Option Int)`:
outer `none` = key absent, which raises `KeyError`, inner `none` = JSON
null).  A raised exception in a per-ad scope is a `none` result; the
external `langdetect.detect` call is a parameter `det : String → Option
String` (`none` = the detector raised).  Machine integers are `Int`
(Python ints are unbounded).
-/

/-- Embedding of the `MediaMix` enum of `transform_raw_data.py` (values "video-only",
"image-only", "both", "none"). -/
inductive MediaMix where
  | video
  | image
  | both
  | none
deriving DecidableEq, Repr

/-- Embedding of the `DisplayFormat` enum of `transform_raw_data.py`. -/
inductive DisplayFormat where
  | video
  | image
  | dco
  | carousel
deriving DecidableEq, Repr

/-- One entry of `snapshot.cards[]`.  Each field is `none` when the key is
absent or the JSON value is null; `some ""` is an empty string (falsy in
Python, like `none`). -/
structure Card where
  body : Option String
  video_hd_url : Option String
  original_image_url : Option String
deriving DecidableEq, Repr

/-- The `snapshot` sub-object of a raw ad.  `display_format` is the raw
string (validated against the enum only later, by pydantic);
`body_text` stands for the full path `snapshot.body.text` (`none` when any
step of that path is missing, which raises `KeyError`/`TypeError`);
`cards` is `none` when the `cards` key is absent. -/
structure Snapshot where
  display_format : Option String
  body_text : Option String
  cards : Option (List Card)
deriving DecidableEq, Repr

/-- A raw ad as read by `parse_ad`.  The five required fields are read with
`ad[...]` (raising `KeyError` when absent, hence `Option`); `collation_id`
and `collation_count` are read with `ad.get(...)` (absent and null both
give `None`, hence a single `Option`); `snapshot` is `none` when the key is
absent or null (`ad["snapshot"]["display_format"]` then raises). -/
structure RawAd where
  ad_archive_id : Option String
  is_active : Option Bool
  start_date : Option (Option Int)
  end_date : Option (Option Int)
  total_active_time : Option (Option Int)
  collation_id : Option String
  collation_count : Option Int
  snapshot : Option Snapshot
deriving DecidableEq, Repr

/-- The dict returned by `parse_ad` (a NormalizedAd candidate, before
validation).  `display_format` is still the raw string; `media_mix` is
already a `MediaMix` member because `get_media_mix` returns enum members. -/
structure ParsedAd where
  ad_id : String
  is_active : Bool
  start_date_ts : Option Int
  end_date_ts : Option Int
  total_active_time_sec : Option Int
  ad_group_id : Option String
  grouped_ads_count : Int
  display_format : String
  media_mix : MediaMix
  ad_text : String
  ad_lang_code : String
deriving DecidableEq, Repr

/-- A record accepted by the pydantic `ValidatedAd` model
(`model_dump()` output).  `grouped_ads_count` is declared `Optional[int]`
in the source but `parse_ad` always supplies an integer, so it is `Int`
here. -/
structure ValidatedRec where
  ad_id : String
  is_active : Bool
  start_date_ts : Int
  end_date_ts : Option Int
  total_active_time_sec : Option Int
  ad_group_id : Option String
  grouped_ads_count : Int
  display_format : DisplayFormat
  media_mix : MediaMix
  ad_text : String
  ad_lang_code : String
deriving DecidableEq, Repr

/-- Python truthiness of an optional string: `None` and `""` are falsy. -/
def truthyStr : Option String → Bool
  | Option.none => false
  | some s => s ≠ ""

/-- Model of the defaulted card-list read of `detect_media_mix`: snapshot
defaults to an empty dict and cards to an empty list when absent. -/
def cardsOf (ad : RawAd) : List Card :=
  match ad.snapshot with
  | Option.none => []
  | some s => s.cards.getD []

/-- Embedding of `detect_media_mix` of `transform_raw_data.py`: the pair
`(has_video, has_image)`.  `display_format` is the raw string compared
against the str-enum members (string comparison in Python). -/
def detect_media_mix (ad : RawAd) (display_format : String) : Bool × Bool :=
  if display_format = "VIDEO" then (true, false)
  else if display_format = "IMAGE" then (false, true)
  else if display_format = "DCO" ∨ display_format = "CAROUSEL" then
    ((cardsOf ad).any fun c => truthyStr c.video_hd_url,
     (cardsOf ad).any fun c => truthyStr c.original_image_url)
  else (false, false)

/-- Embedding of `get_media_mix` of `transform_raw_data.py`. -/
def get_media_mix (ad : RawAd) (display_format : String) : MediaMix :=
  if (detect_media_mix ad display_format).1 ∧ (detect_media_mix ad display_format).2 then
    MediaMix.both
  else if (detect_media_mix ad display_format).1 then MediaMix.video
  else if (detect_media_mix ad display_format).2 then MediaMix.image
  else MediaMix.none

/-- The `ad_text` derivation of `parse_ad` (lines 120–129): for
`DCO`/`CAROUSEL` read `ad["snapshot"]["cards"][0]["body"]`, otherwise
`ad["snapshot"]["body"]["text"]`; every `KeyError`/`IndexError`/`TypeError`
on the path is caught and yields `""`. -/
def derive_ad_text (ad : RawAd) (display_format : String) : String :=
  if display_format = "DCO" ∨ display_format = "CAROUSEL" then
    match ad.snapshot with
    | Option.none => ""
    | some s =>
      match s.cards with
      | Option.none => ""
      | some [] => ""
      | some (c :: _) => c.body.getD ""
  else
    match ad.snapshot with
    | Option.none => ""
    | some s => s.body_text.getD ""

/-- Model of the read `ad.get("collation_count") or 0` at line 114: `None`
(key absent or JSON
null) is falsy and becomes 0; any nonzero integer is kept. -/
def collationVal (ad : RawAd) : Int := ad.collation_count.getD 0

/-- Whether `parse_ad` reaches line 114 for this ad, i.e. whether all five
required-key reads at lines 106–111 succeed; only then is the
`collation_count` of the ad read and the shared group running-max
updated. -/
def readsCollation (ad : RawAd) : Bool :=
  ad.ad_archive_id.isSome && ad.is_active.isSome && ad.start_date.isSome &&
    ad.end_date.isSome && ad.total_active_time.isSome

/-- The tail of `parse_ad` after the running-max update (lines 117–147):
read `snapshot.display_format` (raising when missing), derive media mix and
ad text, run language detection on non-empty text (the detector `det` may
raise, killing the record), and build the result dict.  `none` = the ad
raised and is skipped by `parse_ad_group`. -/
def parseAdRest (det : String → Option String) (ad : RawAd) (aid : String)
    (act : Bool) (sd ed tat : Option Int) (cc : Int) : Option ParsedAd :=
  match ad.snapshot with
  | Option.none => Option.none
  | some snap =>
    match snap.display_format with
    | Option.none => Option.none
    | some dfmt =>
      match (if derive_ad_text ad dfmt = "" then some "undetected"
             else det (derive_ad_text ad dfmt)) with
      | Option.none => Option.none
      | some lang =>
        some { ad_id := aid, is_active := act, start_date_ts := sd,
               end_date_ts := ed, total_active_time_sec := tat,
               ad_group_id := ad.collation_id, grouped_ads_count := cc,
               display_format := dfmt, media_mix := get_media_mix ad dfmt,
               ad_text := derive_ad_text ad dfmt, ad_lang_code := lang }

/-- Embedding of `parse_ad` of `transform_raw_data.py`.  The first component
is the value
of the shared `group_collation_count[0]` cell after the call (the Python
function mutates it at line 115 before the derivation steps that can still
raise); the second is the parsed record, `none` when the ad raised. -/
def parse_ad (det : String → Option String) (ad : RawAd) (gcc : Int) :
    Int × Option ParsedAd :=
  match ad.ad_archive_id, ad.is_active, ad.start_date, ad.end_date,
      ad.total_active_time with
  | some aid, some act, some sd, some ed, some tat =>
    (max gcc (collationVal ad),
     parseAdRest det ad aid act sd ed tat (max gcc (collationVal ad)))
  | _, _, _, _, _ => (gcc, Option.none)

/-- The step-by-step trace of the `parse_ad_group` loop: for each input ad,
the shared running-max value after processing it, paired with its parse
result (`none` when the ad raised and was skipped). -/
def parseGroupTrace (det : String → Option String) :
    List RawAd → Int → List (Int × Option ParsedAd)
  | [], _ => []
  | ad :: rest, gcc =>
    parse_ad det ad gcc :: parseGroupTrace det rest (parse_ad det ad gcc).1

/-- Embedding of `parse_ad_group` of `transform_raw_data.py`: run the ads of
one raw ad
group sequentially with the shared running-max cell starting at 0, keeping
the successfully parsed records in order. -/
def parse_ad_group (det : String → Option String) (ads : List RawAd) :
    List ParsedAd :=
  (parseGroupTrace det ads 0).filterMap (·.2)

/-- The value of the shared `group_collation_count[0]` cell after the given
(prefix of a) group has been processed, starting from `gcc`: every ad whose
required keys were all present contributes `max` of its
`collation_count or 0`; ads that raised earlier contribute nothing. -/
def groupStateAfter (ads : List RawAd) (gcc : Int) : Int :=
  ads.foldl (fun acc ad => if readsCollation ad then max acc (collationVal ad) else acc) gcc

/-- The per-group loop of `transform_raw_data` (lines 191–193): each raw ad
group is parsed independently and the results are concatenated. -/
def parse_all_groups (det : String → Option String)
    (groups : List (List RawAd)) : List ParsedAd :=
  (groups.map (parse_ad_group det)).flatten

/-- Model of `datetime.fromtimestamp(v, tz=timezone.utc)`: it succeeds
exactly for
timestamps whose UTC calendar time falls in years 1–9999 (the range of
`datetime`); outside it raises and the pydantic validator rejects. -/
def validTimestamp (v : Int) : Bool :=
  (-62135596800 ≤ v) && (v ≤ 253402300799)

/-- Coercion of the raw `display_format` string into the `DisplayFormat`
enum performed by pydantic; any other string is a validation failure. -/
def parseDisplayFormat : String → Option DisplayFormat
  | "VIDEO" => some DisplayFormat.video
  | "IMAGE" => some DisplayFormat.image
  | "DCO" => some DisplayFormat.dco
  | "CAROUSEL" => some DisplayFormat.carousel
  | _ => Option.none

/-- The enum/model-validator part of `ValidatedAd`, run after the timestamp
field validators: coerce `display_format`, then `check_dates_order` — the
Python guard is `if self.start_date_ts and self.end_date_ts:`, i.e. the
order check runs only when both values are *truthy* (present and nonzero),
and raises when `end_date_ts < start_date_ts`. -/
def validateRest (p : ParsedAd) (s : Int) (e : Option Int) :
    Except String ValidatedRec :=
  match parseDisplayFormat p.display_format with
  | Option.none => Except.error "display_format is not a valid DisplayFormat"
  | some dfmt =>
    match e with
    | some ev =>
      if s ≠ 0 ∧ ev ≠ 0 ∧ ev < s then
        Except.error "end_date cannot be earlier than start_date"
      else
        Except.ok { ad_id := p.ad_id, is_active := p.is_active,
                    start_date_ts := s, end_date_ts := some ev,
                    total_active_time_sec := p.total_active_time_sec,
                    ad_group_id := p.ad_group_id,
                    grouped_ads_count := p.grouped_ads_count,
                    display_format := dfmt, media_mix := p.media_mix,
                    ad_text := p.ad_text, ad_lang_code := p.ad_lang_code }
    | Option.none =>
      Except.ok { ad_id := p.ad_id, is_active := p.is_active,
                  start_date_ts := s, end_date_ts := Option.none,
                  total_active_time_sec := p.total_active_time_sec,
                  ad_group_id := p.ad_group_id,
                  grouped_ads_count := p.grouped_ads_count,
                  display_format := dfmt, media_mix := p.media_mix,
                  ad_text := p.ad_text, ad_lang_code := p.ad_lang_code }

/-- Embedding of the pydantic construction of `ValidatedAd` in
`transform_raw_data.py` as a total function:
`Except.ok` is a successful construction (the accepted record),
`Except.error` is the `ValidationError` caught by `validate_and_clean_data`
(the message is representative; `validate_and_clean_data` treats it as an
uninterpreted reason string).  `start_date_ts` is a required `int` field, so a
null raw `start_date` is rejected; both timestamp fields must denote valid
calendar times (`validate_unix_timestamp`). -/
def validateAd (p : ParsedAd) : Except String ValidatedRec :=
  match p.start_date_ts with
  | Option.none => Except.error "start_date_ts must be an integer"
  | some s =>
    if ¬ validTimestamp s then Except.error "Invalid UNIX timestamp (start_date_ts)"
    else
      match p.end_date_ts with
      | some e =>
        if ¬ validTimestamp e then Except.error "Invalid UNIX timestamp (end_date_ts)"
        else validateRest p s (some e)
      | Option.none => validateRest p s Option.none

/-- Embedding of `validate_and_clean_data` of `transform_raw_data.py`:
partition the
parsed candidates into accepted records and `{record, validation_error}`
pairs, preserving order. -/
def validate_and_clean_data (l : List ParsedAd) :
    List ValidatedRec × List (ParsedAd × String) :=
  match l with
  | [] => ([], [])
  | ad :: rest =>
    match validateAd ad with
    | Except.ok v =>
      (v :: (validate_and_clean_data rest).1, (validate_and_clean_data rest).2)
    | Except.error e =>
      ((validate_and_clean_data rest).1, (ad, e) :: (validate_and_clean_data rest).2)

/-- Worker of `dropDupBy`: keep each element whose key has not been seen
before; pandas `drop_duplicates(keep="first")` semantics. -/
def dropDupAux {α κ : Type} [DecidableEq κ] (key : α → κ) :
    List κ → List α → List α
  | _, [] => []
  | seen, x :: xs =>
    if key x ∈ seen then dropDupAux key seen xs
    else x :: dropDupAux key (key x :: seen) xs

/-- Model of `df.drop_duplicates` on a single key column with keep first.
With `κ := Option _`,
`none = none` holds, which matches pandas: null keys are treated as
duplicates of each other. -/
def dropDupBy {α κ : Type} [DecidableEq κ] (key : α → κ) (l : List α) :
    List α :=
  dropDupAux key [] l

/-- The three sequential dedup passes of `transform_raw_data`
(lines 217–219): by `ad_id`, then by `ad_group_id`, then by `ad_text`,
each keeping the first-encountered record. -/
def dedup_stages (l : List ValidatedRec) : List ValidatedRec :=
  dropDupBy (·.ad_text) (dropDupBy (·.ad_group_id) (dropDupBy (·.ad_id) l))

/-- Outcome of one iteration of the `find_init_data_with_retries` loop of
`collect_raw_data.py`, as a function of the attempt number: the navigation
(`page.goto`) can raise `TimeoutError`; the extraction
(`get_parsed_init_data`) can raise `InitDataNotFoundException` (marker not
found) or any other exception; otherwise it yields the parsed initial
data. -/
inductive AttemptOutcome (α : Type) where
  | success (data : α)
  | timeout
  | initDataNotFound
  | unexpectedError
deriving DecidableEq, Repr

/-- Constant `MAX_RETRIES` of `collect_raw_data.py`. -/
def MAX_RETRIES : Nat := 5

/-- The `for attempt in range(1, MAX_RETRIES + 1)` loop body of
`find_init_data_with_retries`, over the list of attempt numbers still to
run.  The result pairs the parsed data (`none` when the loop gave up) with
the number of navigation attempts actually made.  Timeout and unexpected
errors return immediately; `initDataNotFound` retries (after a fixed
real-time delay, not modelled) while `attempt < MAX_RETRIES`, and gives up
at the last attempt. -/
def retryLoop {α : Type} (nav : Nat → AttemptOutcome α) :
    List Nat → Option α × Nat
  | [] => (Option.none, 0)
  | attempt :: rest =>
    match nav attempt with
    | AttemptOutcome.success d => (some d, 1)
    | AttemptOutcome.timeout => (Option.none, 1)
    | AttemptOutcome.unexpectedError => (Option.none, 1)
    | AttemptOutcome.initDataNotFound =>
      if attempt < MAX_RETRIES then
        ((retryLoop nav rest).1, (retryLoop nav rest).2 + 1)
      else (Option.none, 1)

/-- The attempt numbers `range(1, MAX_RETRIES + 1)` of the retry loop. -/
def attemptNumbers : List Nat := [1, 2, 3, 4, 5]

/-- Embedding of `find_init_data_with_retries` of `collect_raw_data.py`:
the parsed
initial-render data, or `none` when every path gave up (the Python function
returns `None` in all of those cases — it never raises). -/
def find_init_data_with_retries {α : Type} (nav : Nat → AttemptOutcome α) :
    Option α :=
  (retryLoop nav attemptNumbers).1

/-- The number of `page.goto` navigation attempts made by
`find_init_data_with_retries`. -/
def navAttemptsUsed {α : Type} (nav : Nat → AttemptOutcome α) : Nat :=
  (retryLoop nav attemptNumbers).2

/-- The data flow of `collect_raw_data` (lines 183–203): the raw dataset
written to disk is the global `raw_ads_data` accumulator — the initial-render
groups (when `find_init_data_with_retries` returned data) together with
every group captured by the `handle_response` interceptor during the
session (`intercepted`; capture timing within the session is abstracted).
The function always scrolls, writes the file and returns its path; no
failure of the retry loop aborts it, so it is total here. -/
def collect_raw_data (nav : Nat → AttemptOutcome (List (List RawAd)))
    (intercepted : List (List RawAd)) : List (List RawAd) :=
  (match find_init_data_with_retries nav with
   | some d => d
   | Option.none => []) ++ intercepted

/-- The `end_date` column rule of `generate_report` (lines 25–30): emit
null when `end_date_ts` is null *or equal to* `start_date_ts`, otherwise
the UTC datetime of `end_date_ts` (a datetime is represented here by its
timestamp). -/
def report_end_date (end_date_ts : Option Int) (start_date_ts : Int) :
    Option Int :=
  match end_date_ts with
  | Option.none => Option.none
  | some v => if v = start_date_ts then Option.none else some v

/-! ### Helper lemmas about `parse_ad` and the group trace -/

lemma parse_ad_fst (det : String → Option String) (ad : RawAd) (gcc : Int) :
    (parse_ad det ad gcc).1 =
      if readsCollation ad then max gcc (collationVal ad) else gcc := by
  rcases ad with ⟨aid, act, sd, ed, tat, cid, cc, snap⟩
  cases aid <;> cases act <;> cases sd <;> cases ed <;> cases tat <;>
    simp [parse_ad, readsCollation]

lemma parse_ad_fst_ge (det : String → Option String) (ad : RawAd) (gcc : Int) :
    gcc ≤ (parse_ad det ad gcc).1 := by
  rw [parse_ad_fst]
  split
  · exact le_max_left _ _
  · exact le_refl _

lemma parseAdRest_count (det : String → Option String) (ad : RawAd)
    (aid : String) (act : Bool) (sd ed tat : Option Int) (cc : Int)
    (rec : ParsedAd) (h : parseAdRest det ad aid act sd ed tat cc = some rec) :
    rec.grouped_ads_count = cc := by
  unfold parseAdRest at h
  split at h
  · exact Option.noConfusion h
  · split at h
    · exact Option.noConfusion h
    · split at h
      · exact Option.noConfusion h
      · injection h with h
        rw [← h]

lemma parse_ad_snd_count (det : String → Option String) (ad : RawAd)
    (gcc : Int) (rec : ParsedAd) (h : (parse_ad det ad gcc).2 = some rec) :
    rec.grouped_ads_count = (parse_ad det ad gcc).1 := by
  unfold parse_ad at h ⊢
  split at h
  · exact parseAdRest_count _ _ _ _ _ _ _ _ _ h
  · exact Option.noConfusion h

lemma parseGroupTrace_length (det : String → Option String)
    (ads : List RawAd) (gcc : Int) :
    (parseGroupTrace det ads gcc).length = ads.length := by
  induction ads generalizing gcc with
  | nil => rfl
  | cons ad rest ih => simp [parseGroupTrace, ih]

lemma parseGroupTrace_state (det : String → Option String)
    (ads : List RawAd) (gcc : Int) (i : Nat)
    (h : i < (parseGroupTrace det ads gcc).length) :
    ((parseGroupTrace det ads gcc).get ⟨i, h⟩).1 =
      groupStateAfter (ads.take (i + 1)) gcc := by
  induction ads generalizing gcc i with
  | nil => simp [parseGroupTrace] at h
  | cons ad rest ih =>
    cases i with
    | zero =>
      simp only [parseGroupTrace, List.get, List.take, groupStateAfter,
        List.foldl_cons, List.foldl_nil, List.take_zero]
      rw [parse_ad_fst]
    | succ j =>
      simp only [parseGroupTrace, List.get, List.take, groupStateAfter,
        List.foldl_cons]
      rw [ih]
      simp only [groupStateAfter]
      rw [parse_ad_fst]

lemma parseGroupTrace_snd_count (det : String → Option String)
    (ads : List RawAd) (gcc : Int) :
    ∀ e ∈ parseGroupTrace det ads gcc, ∀ rec : ParsedAd,
      e.2 = some rec → rec.grouped_ads_count = e.1 := by
  induction ads generalizing gcc with
  | nil => intro e he; simp [parseGroupTrace] at he
  | cons ad rest ih =>
    intro e he rec hrec
    simp only [parseGroupTrace, List.mem_cons] at he
    rcases he with he | he
    · subst he
      exact parse_ad_snd_count _ _ _ _ hrec
    · exact ih _ _ he _ hrec

lemma parseGroupTrace_states_sorted (det : String → Option String)
    (ads : List RawAd) (gcc : Int) :
    ((parseGroupTrace det ads gcc).map (·.1)).Sorted (· ≤ ·) ∧
      ∀ x ∈ (parseGroupTrace det ads gcc).map (·.1), gcc ≤ x := by
  induction ads generalizing gcc with
  | nil => simp [parseGroupTrace]
  | cons ad rest ih =>
    simp only [parseGroupTrace, List.map_cons, List.sorted_cons,
      List.mem_cons]
    obtain ⟨ihs, ihge⟩ := ih (parse_ad det ad gcc).1
    refine ⟨⟨fun b hb => ihge b hb, ihs⟩, ?_⟩
    intro x hx
    rcases hx with hx | hx
    · subst hx; exact parse_ad_fst_ge det ad gcc
    · exact le_trans (parse_ad_fst_ge det ad gcc) (ihge x hx)

lemma filterMap_counts_sublist (tr : List (Int × Option ParsedAd))
    (hcount : ∀ e ∈ tr, ∀ rec : ParsedAd, e.2 = some rec →
      rec.grouped_ads_count = e.1) :
    ((tr.filterMap (·.2)).map (·.grouped_ads_count)).Sublist (tr.map (·.1)) := by
  induction tr with
  | nil => simp
  | cons e tr' ih =>
    have hrest : ∀ x ∈ tr', ∀ rec : ParsedAd, x.2 = some rec →
        rec.grouped_ads_count = x.1 := fun x hx => hcount x (List.mem_cons_of_mem _ hx)
    rcases he : e.2 with _ | rec
    · simp only [List.filterMap_cons, he, List.map_cons]
      exact (ih hrest).cons _
    · simp only [List.filterMap_cons, he, List.map_cons]
      rw [hcount e (List.mem_cons_self _ _) rec he]
      exact (ih hrest).cons₂ _

/-! ### Concrete inputs used by witnesses and counterexamples -/

/-- A language detector that always answers "en" (a stand-in for
`langdetect.detect` on ordinary text). -/
def detEn : String → Option String := fun _ => some "en"

/-- A plain single-image snapshot. -/
def snapIMG : Snapshot :=
  { display_format := some "IMAGE", body_text := some "hi",
    cards := Option.none }

def wAd1 : RawAd :=
  { ad_archive_id := some "a1", is_active := some true,
    start_date := some (some 100), end_date := some Option.none,
    total_active_time := some Option.none, collation_id := some "g",
    collation_count := some 2, snapshot := some snapIMG }

def wAd2 : RawAd :=
  { ad_archive_id := some "a2", is_active := some true,
    start_date := some (some 100), end_date := some Option.none,
    total_active_time := some Option.none, collation_id := some "g",
    collation_count := some 1, snapshot := some snapIMG }

/-- The output of `parse_ad` for `wAd2` after `wAd1`: the own
`collation_count` of `wAd2` is 1 but the running max of the group is
already 2. -/
def wRec2 : ParsedAd :=
  { ad_id := "a2", is_active := true, start_date_ts := some 100,
    end_date_ts := Option.none, total_active_time_sec := Option.none,
    ad_group_id := some "g", grouped_ads_count := 2,
    display_format := "IMAGE", media_mix := MediaMix.image,
    ad_text := "hi", ad_lang_code := "en" }

/-- An ad whose five required keys are present (so the shared running max is
updated with its `collation_count` 7) but whose `snapshot` key is missing,
so `parse_ad` raises at `ad["snapshot"]["display_format"]` *after* the
update and the ad is skipped. -/
def c9Bad : RawAd :=
  { ad_archive_id := some "bad", is_active := some true,
    start_date := some (some 100), end_date := some Option.none,
    total_active_time := some Option.none, collation_id := some "g",
    collation_count := some 7, snapshot := Option.none }

def c9Good : RawAd :=
  { ad_archive_id := some "good", is_active := some true,
    start_date := some (some 100), end_date := some Option.none,
    total_active_time := some Option.none, collation_id := some "g",
    collation_count := some 1, snapshot := some snapIMG }

/-- What `parse_ad_group` produces for `c9Good` when it is preceded by the
failing `c9Bad`: `grouped_ads_count` is 7, inherited from the skipped ad. -/
def c9GoodRec : ParsedAd :=
  { ad_id := "good", is_active := true, start_date_ts := some 100,
    end_date_ts := Option.none, total_active_time_sec := Option.none,
    ad_group_id := some "g", grouped_ads_count := 7,
    display_format := "IMAGE", media_mix := MediaMix.image,
    ad_text := "hi", ad_lang_code := "en" }

/-- Two accepted records that share nothing except a null `ad_group_id`. -/
def nullGroupRec1 : ValidatedRec :=
  { ad_id := "a", is_active := true, start_date_ts := 100,
    end_date_ts := Option.none, total_active_time_sec := Option.none,
    ad_group_id := Option.none, grouped_ads_count := 0,
    display_format := DisplayFormat.image, media_mix := MediaMix.image,
    ad_text := "t1", ad_lang_code := "en" }

def nullGroupRec2 : ValidatedRec :=
  { ad_id := "b", is_active := true, start_date_ts := 100,
    end_date_ts := Option.none, total_active_time_sec := Option.none,
    ad_group_id := Option.none, grouped_ads_count := 0,
    display_format := DisplayFormat.image, media_mix := MediaMix.image,
    ad_text := "t2", ad_lang_code := "en" }

/-! ### Claim theorems -/

/-- Claim C2: within one raw ad group (the running-max cell starting at 0,
independently per group), the `grouped_ads_count` values assigned to the
successfully parsed records are non-decreasing in processing order, and the
record produced at position `i` carries exactly the maximum
`collation_count` observed up to and including position `i` — where the
`collation_count` of an ad is
observed (null/absent counting as 0) exactly when the
parser reaches the line that reads it, i.e. when the five required
keys of the ad are all present (`readsCollation`); an ad that raises on a
missing
required key before that line contributes nothing. -/
theorem claim2_grouped_count_running_max (det : String → Option String)
    (ads : List RawAd) (groups : List (List RawAd)) :
    ((parse_ad_group det ads).map (·.grouped_ads_count)).Sorted (· ≤ ·) ∧
    (∀ i, ∀ h : i < (parseGroupTrace det ads 0).length, ∀ rec : ParsedAd,
        ((parseGroupTrace det ads 0).get ⟨i, h⟩).2 = some rec →
        rec.grouped_ads_count = groupStateAfter (ads.take (i + 1)) 0) ∧
    parse_all_groups det groups = (groups.map (parse_ad_group det)).flatten := by
  refine ⟨?_, ?_, rfl⟩
  · have hsub := filterMap_counts_sublist (parseGroupTrace det ads 0)
      (parseGroupTrace_snd_count det ads 0)
    have hsort := (parseGroupTrace_states_sorted det ads 0).1
    exact List.Pairwise.sublist hsub hsort
  · intro i h rec hrec
    have hc := parseGroupTrace_snd_count det ads 0 _
      (List.get_mem _ _ _) rec hrec
    rw [hc, parseGroupTrace_state]

theorem claim2_witness :
    ((parseGroupTrace detEn [wAd1, wAd2] 0).get ⟨1, by decide⟩).2 = some wRec2 ∧
    wRec2.grouped_ads_count = groupStateAfter ([wAd1, wAd2].take 2) 0 :=
  ⟨by decide,
   (claim2_grouped_count_running_max detEn [wAd1, wAd2] []).2.1 1 (by decide)
     wRec2 (by decide)⟩

/-- Claim C9: the per-ad error handling of `parse_ad_group` is not atomic
with respect to the shared running max: `c9Bad` raises (its parse result is
`none` and it is skipped) but only after updating the shared cell with its
`collation_count` 7, so the following record `c9Good` — whose own
`collation_count` is 1, and which would get `grouped_ads_count = 1` in a
group of its own — is assigned `grouped_ads_count = 7`. -/
theorem claim9_failed_ad_raises_count :
    (parse_ad detEn c9Bad 0).2 = Option.none ∧
    parse_ad_group detEn [c9Bad, c9Good] = [c9GoodRec] ∧
    c9GoodRec.grouped_ads_count = 7 ∧
    c9Good.collation_count = some 1 ∧
    (parse_ad_group detEn [c9Good]).map (·.grouped_ads_count) = [1] := by
  refine ⟨rfl, by decide, rfl, rfl, by decide⟩

/-- Claim C1 (evaluation at the failing input): pandas
`drop_duplicates(subset=["ad_group_id"], keep="first")` treats null keys as
duplicates of each other, so of two accepted records that both lack an
`ad_group_id` — while differing in `ad_id` and `ad_text`, hence surviving
stages 1 and 3 — only the first survives the funnel, contradicting the
claim that null-group records are never collapsed by stage 2. -/
theorem claim1_null_groups_are_collapsed :
    nullGroupRec1.ad_group_id = Option.none ∧
    nullGroupRec2.ad_group_id = Option.none ∧
    nullGroupRec1.ad_id ≠ nullGroupRec2.ad_id ∧
    nullGroupRec1.ad_text ≠ nullGroupRec2.ad_text ∧
    dedup_stages [nullGroupRec1, nullGroupRec2] = [nullGroupRec1] := by
  refine ⟨rfl, rfl, by decide, by decide, by decide⟩

/-- Claim C10: `generate_report` emits a null `end_date` both when
`end_date_ts` is null and when it equals `start_date_ts` (even though the
persisted dataset still carries that value), and emits the corresponding
UTC datetime whenever the two differ. -/
theorem claim10_end_date_nulled_when_equal (s e : Int) :
    report_end_date Option.none s = Option.none ∧
    report_end_date (some s) s = Option.none ∧
    (e ≠ s → report_end_date (some e) s = some e) := by
  refine ⟨rfl, by simp [report_end_date], fun h => by simp [report_end_date, h]⟩

theorem claim10_witness :
    (5 : Int) ≠ 3 ∧ report_end_date (some 5) 3 = some 5 :=
  ⟨by decide, (claim10_end_date_nulled_when_equal 3 5).2.2 (by decide)⟩

lemma parseAdRest_fields (det : String → Option String) (ad : RawAd)
    (aid : String) (act : Bool) (sd ed tat : Option Int) (cc : Int)
    (snap : Snapshot) (dfmt : String) (rec : ParsedAd)
    (hsnap : ad.snapshot = some snap) (hdf : snap.display_format = some dfmt)
    (h : parseAdRest det ad aid act sd ed tat cc = some rec) :
    rec.ad_text = derive_ad_text ad dfmt ∧
    (rec.ad_text = "" → rec.ad_lang_code = "undetected") := by
  simp only [parseAdRest, hsnap, hdf] at h
  split at h
  · exact Option.noConfusion h
  · next lang heq =>
    injection h with h
    subst h
    refine ⟨rfl, fun hempty => ?_⟩
    have hd : derive_ad_text ad dfmt = "" := hempty
    rw [if_pos hd] at heq
    injection heq with heq
    exact heq.symm

lemma parse_ad_empty_text_success (det : String → Option String) (ad : RawAd)
    (gcc : Int) (snap : Snapshot) (dfmt : String)
    (hrc : readsCollation ad = true)
    (hsnap : ad.snapshot = some snap) (hdf : snap.display_format = some dfmt)
    (hd : derive_ad_text ad dfmt = "") :
    ((parse_ad det ad gcc).2).isSome = true := by
  rcases ad with ⟨a1, a2, a3, a4, a5, a6, a7, a8⟩
  simp only [readsCollation, Bool.and_eq_true] at hrc
  obtain ⟨⟨⟨⟨h1, h2⟩, h3⟩, h4⟩, h5⟩ := hrc
  rcases Option.isSome_iff_exists.mp h1 with ⟨aid, ha1⟩
  rcases Option.isSome_iff_exists.mp h2 with ⟨act, ha2⟩
  rcases Option.isSome_iff_exists.mp h3 with ⟨sd, ha3⟩
  rcases Option.isSome_iff_exists.mp h4 with ⟨ed, ha4⟩
  rcases Option.isSome_iff_exists.mp h5 with ⟨tat, ha5⟩
  simp only at ha1 ha2 ha3 ha4 ha5 hsnap
  subst ha1 ha2 ha3 ha4 ha5 hsnap
  simp [parse_ad, parseAdRest, hdf, hd]

/-- Claim C4: `parse_ad` derives `ad_text` from the body of the first card
for `DCO`/`CAROUSEL` and from `snapshot.body.text` for every other format;
whenever the expected path is missing (no cards key, empty cards list,
first card without a body, or no body text) the derivation falls back to
the empty string instead of failing the record — an ad whose required keys
are present still parses successfully (`isSome`), and by the first conjunct
any record with empty `ad_text` gets `ad_lang_code = "undetected"` (the
detector is not invoked on empty text). -/
theorem claim4_ad_text_fallback (det : String → Option String) (ad : RawAd)
    (gcc : Int) (snap : Snapshot) (dfmt : String)
    (hsnap : ad.snapshot = some snap)
    (hdf : snap.display_format = some dfmt) :
    (∀ rec : ParsedAd, (parse_ad det ad gcc).2 = some rec →
      rec.ad_text = derive_ad_text ad dfmt ∧
      (rec.ad_text = "" → rec.ad_lang_code = "undetected")) ∧
    ((dfmt = "DCO" ∨ dfmt = "CAROUSEL") → ∀ c cs, snap.cards = some (c :: cs) →
      ∀ b, c.body = some b → derive_ad_text ad dfmt = b) ∧
    (dfmt ≠ "DCO" → dfmt ≠ "CAROUSEL" → ∀ t, snap.body_text = some t →
      derive_ad_text ad dfmt = t) ∧
    ((dfmt = "DCO" ∨ dfmt = "CAROUSEL") → snap.cards = Option.none →
      derive_ad_text ad dfmt = "") ∧
    ((dfmt = "DCO" ∨ dfmt = "CAROUSEL") → snap.cards = some [] →
      derive_ad_text ad dfmt = "") ∧
    ((dfmt = "DCO" ∨ dfmt = "CAROUSEL") → ∀ c cs, snap.cards = some (c :: cs) →
      c.body = Option.none → derive_ad_text ad dfmt = "") ∧
    (dfmt ≠ "DCO" → dfmt ≠ "CAROUSEL" → snap.body_text = Option.none →
      derive_ad_text ad dfmt = "") ∧
    (readsCollation ad = true → derive_ad_text ad dfmt = "" →
      ((parse_ad det ad gcc).2).isSome = true) := by
  refine ⟨?_, ?_, ?_, ?_, ?_, ?_, ?_, ?_⟩
  · intro rec h
    unfold parse_ad at h
    split at h
    · exact parseAdRest_fields det ad _ _ _ _ _ _ snap dfmt rec hsnap hdf h
    · exact Option.noConfusion h
  · intro hf c cs hcards b hbody
    rcases hf with hf | hf <;> subst hf <;>
      simp [derive_ad_text, hsnap, hcards, hbody]
  · intro h1 h2 t hbt
    simp [derive_ad_text, hsnap, hbt, h1, h2]
  · intro hf hcards
    rcases hf with hf | hf <;> subst hf <;>
      simp [derive_ad_text, hsnap, hcards]
  · intro hf hcards
    rcases hf with hf | hf <;> subst hf <;>
      simp [derive_ad_text, hsnap, hcards]
  · intro hf c cs hcards hbody
    rcases hf with hf | hf <;> subst hf <;>
      simp [derive_ad_text, hsnap, hcards, hbody]
  · intro h1 h2 hbt
    simp [derive_ad_text, hsnap, hbt, h1, h2]
  · intro hrc hd
    exact parse_ad_empty_text_success det ad gcc snap dfmt hrc hsnap hdf hd

/-- A carousel ad whose cards key is missing entirely: the text path
`snapshot.cards[0]["body"]` raises `KeyError`, which `parse_ad` catches. -/
def carouselNoCardsAd : RawAd :=
  { ad_archive_id := some "car1", is_active := some true,
    start_date := some (some 100), end_date := some Option.none,
    total_active_time := some Option.none, collation_id := Option.none,
    collation_count := Option.none,
    snapshot := some { display_format := some "CAROUSEL",
                       body_text := some "ignored", cards := Option.none } }

def carouselNoCardsSnap : Snapshot :=
  { display_format := some "CAROUSEL", body_text := some "ignored",
    cards := Option.none }

theorem claim4_witness :
    carouselNoCardsAd.snapshot = some carouselNoCardsSnap ∧
    carouselNoCardsSnap.display_format = some "CAROUSEL" ∧
    readsCollation carouselNoCardsAd = true ∧
    derive_ad_text carouselNoCardsAd "CAROUSEL" = "" ∧
    ((parse_ad detEn carouselNoCardsAd 0).2).isSome = true :=
  ⟨rfl, rfl, by decide,
   (claim4_ad_text_fallback detEn carouselNoCardsAd 0 carouselNoCardsSnap
      "CAROUSEL" rfl rfl).2.2.2.1 (Or.inr rfl) rfl,
   (claim4_ad_text_fallback detEn carouselNoCardsAd 0 carouselNoCardsSnap
      "CAROUSEL" rfl rfl).2.2.2.2.2.2.2 (by decide)
     ((claim4_ad_text_fallback detEn carouselNoCardsAd 0 carouselNoCardsSnap
        "CAROUSEL" rfl rfl).2.2.2.1 (Or.inr rfl) rfl)⟩

lemma detect_media_mix_video (ad : RawAd) :
    detect_media_mix ad "VIDEO" = (true, false) := rfl

lemma detect_media_mix_image (ad : RawAd) :
    detect_media_mix ad "IMAGE" = (false, true) := rfl

lemma detect_media_mix_cards (ad : RawAd) (dfmt : String)
    (h : dfmt = "DCO" ∨ dfmt = "CAROUSEL") :
    detect_media_mix ad dfmt =
      ((cardsOf ad).any fun c => truthyStr c.video_hd_url,
       (cardsOf ad).any fun c => truthyStr c.original_image_url) := by
  rcases h with h | h <;> subst h <;> rfl

/-- Claim C8: `get_media_mix` returns `video-only` for `VIDEO` and
`image-only` for `IMAGE` unconditionally (independent of card contents);
for `DCO`/`CAROUSEL` it is determined by which of the two media kinds
appear as a populated `video_hd_url` / `original_image_url` across
`snapshot.cards` — `both`, `video-only`, `image-only`, or `none` when
neither appears, in particular whenever `cards` is absent or empty
(`cardsOf` is then `[]`). -/
theorem claim8_media_mix_by_format (ad : RawAd) :
    get_media_mix ad "VIDEO" = MediaMix.video ∧
    get_media_mix ad "IMAGE" = MediaMix.image ∧
    (∀ dfmt, dfmt = "DCO" ∨ dfmt = "CAROUSEL" →
      (((cardsOf ad).any fun c => truthyStr c.video_hd_url) = true →
        ((cardsOf ad).any fun c => truthyStr c.original_image_url) = true →
        get_media_mix ad dfmt = MediaMix.both) ∧
      (((cardsOf ad).any fun c => truthyStr c.video_hd_url) = true →
        ((cardsOf ad).any fun c => truthyStr c.original_image_url) = false →
        get_media_mix ad dfmt = MediaMix.video) ∧
      (((cardsOf ad).any fun c => truthyStr c.video_hd_url) = false →
        ((cardsOf ad).any fun c => truthyStr c.original_image_url) = true →
        get_media_mix ad dfmt = MediaMix.image) ∧
      (((cardsOf ad).any fun c => truthyStr c.video_hd_url) = false →
        ((cardsOf ad).any fun c => truthyStr c.original_image_url) = false →
        get_media_mix ad dfmt = MediaMix.none)) ∧
    (∀ dfmt, dfmt = "DCO" ∨ dfmt = "CAROUSEL" → cardsOf ad = [] →
      get_media_mix ad dfmt = MediaMix.none) := by
  refine ⟨?_, ?_, ?_, ?_⟩
  · simp [get_media_mix, detect_media_mix_video]
  · simp [get_media_mix, detect_media_mix_image]
  · intro dfmt h
    refine ⟨?_, ?_, ?_, ?_⟩ <;> intro hv hi <;>
      simp [get_media_mix, detect_media_mix_cards ad dfmt h, hv, hi]
  · intro dfmt h hcards
    simp [get_media_mix, detect_media_mix_cards ad dfmt h, hcards]

/-- A DCO ad whose single card carries a populated video URL and no
image URL. -/
def dcoVideoAd : RawAd :=
  { ad_archive_id := some "dco1", is_active := some true,
    start_date := some (some 100), end_date := some Option.none,
    total_active_time := some Option.none, collation_id := some "g",
    collation_count := some 1,
    snapshot := some
      { display_format := some "DCO", body_text := Option.none,
        cards := some [{ body := some "card text",
                         video_hd_url := some "https://v.example/hd.mp4",
                         original_image_url := Option.none }] } }

theorem claim8_witness :
    ((cardsOf dcoVideoAd).any fun c => truthyStr c.video_hd_url) = true ∧
    ((cardsOf dcoVideoAd).any fun c => truthyStr c.original_image_url) = false ∧
    get_media_mix dcoVideoAd "DCO" = MediaMix.video :=
  ⟨by decide, by decide,
   ((claim8_media_mix_by_format dcoVideoAd).2.2.1 "DCO" (Or.inl rfl)).2.1
     (by decide) (by decide)⟩

/-- A normalized candidate whose `end_date_ts` (0, i.e. 1970-01-01, a valid
timestamp) is earlier than its `start_date_ts` (1700000000). -/
def c5ZeroEnd : ParsedAd :=
  { ad_id := "z", is_active := true, start_date_ts := some 1700000000,
    end_date_ts := some 0, total_active_time_sec := Option.none,
    ad_group_id := Option.none, grouped_ads_count := 1,
    display_format := "IMAGE", media_mix := MediaMix.image,
    ad_text := "hi", ad_lang_code := "en" }

/-- The accepted form of `c5ZeroEnd` — accepted although its end date
precedes its start date. -/
def c5ZeroEndOut : ValidatedRec :=
  { ad_id := "z", is_active := true, start_date_ts := 1700000000,
    end_date_ts := some 0, total_active_time_sec := Option.none,
    ad_group_id := Option.none, grouped_ads_count := 1,
    display_format := DisplayFormat.image, media_mix := MediaMix.image,
    ad_text := "hi", ad_lang_code := "en" }

/-- The scenario given in the spec: `end_date = 1699999999`, `start_date =
1700000000`. -/
def c5Scenario : ParsedAd :=
  { ad_id := "s", is_active := true, start_date_ts := some 1700000000,
    end_date_ts := some 1699999999, total_active_time_sec := Option.none,
    ad_group_id := Option.none, grouped_ads_count := 1,
    display_format := "IMAGE", media_mix := MediaMix.image,
    ad_text := "hi", ad_lang_code := "en" }

/-- Claim C5 (evaluation at the failing input): `check_dates_order` guards
with `if self.start_date_ts and self.end_date_ts:` — Python *truthiness*,
not presence — so a candidate whose `end_date_ts` is the valid timestamp 0
is accepted into the valid set even though 0 < 1700000000, while the
nonzero scenario of the spec (end 1699999999 before start 1700000000) is
rejected with
the date-order reason exactly as the claim says. -/
theorem claim5_zero_end_date_accepted :
    validTimestamp 0 = true ∧
    validTimestamp 1700000000 = true ∧
    (0 : Int) < 1700000000 ∧
    validate_and_clean_data [c5ZeroEnd] = ([c5ZeroEndOut], []) ∧
    validate_and_clean_data [c5Scenario] =
      ([], [(c5Scenario, "end_date cannot be earlier than start_date")]) := by
  refine ⟨by decide, by decide, by decide, by decide, by decide⟩

/-- Navigation that times out on every attempt. -/
def navTimeout : Nat → AttemptOutcome (List (List RawAd)) :=
  fun _ => AttemptOutcome.timeout

/-- Claim C3, counterexample: when navigation times out, the collection run
is *not* aborted — `find_init_data_with_retries` returns `None`, but
`collect_raw_data` still proceeds through the scroll loop and produces a
raw dataset from whatever the response interceptor captured (here one
group), contradicting "the collection run does not proceed to produce a raw
dataset from subsequent scrolling". -/
theorem claim3_counterexample :
    find_init_data_with_retries navTimeout = Option.none ∧
    collect_raw_data navTimeout [[wAd1]] = [[wAd1]] ∧
    collect_raw_data navTimeout [[wAd1]] ≠ [] := by
  refine ⟨rfl, rfl, by decide⟩

/-- Claim C3, amended: when navigation times out at any attempt `k` that the
loop reaches (all earlier attempts having failed retryably), the retry
controller gives up immediately — no further navigation attempts are made
and no initial data is returned — but the collection run is not aborted: it
proceeds to scroll, and the raw dataset it writes is exactly what the
response interceptor captured. -/
theorem claim3_timeout_stops_retries (nav : Nat → AttemptOutcome (List (List RawAd)))
    (cap : List (List RawAd)) (k : Nat) (h1 : 1 ≤ k) (h5 : k ≤ MAX_RETRIES)
    (hprev : ∀ a, 1 ≤ a → a < k → nav a = AttemptOutcome.initDataNotFound)
    (htime : nav k = AttemptOutcome.timeout) :
    find_init_data_with_retries nav = Option.none ∧
    navAttemptsUsed nav = k ∧
    collect_raw_data nav cap = cap := by
  have hloop : retryLoop nav attemptNumbers = (Option.none, k) := by
    unfold MAX_RETRIES at h5
    interval_cases k
    · simp [retryLoop, attemptNumbers, htime]
    · simp [retryLoop, attemptNumbers, MAX_RETRIES, htime,
        hprev 1 (by norm_num) (by norm_num)]
    · simp [retryLoop, attemptNumbers, MAX_RETRIES, htime,
        hprev 1 (by norm_num) (by norm_num), hprev 2 (by norm_num) (by norm_num)]
    · simp [retryLoop, attemptNumbers, MAX_RETRIES, htime,
        hprev 1 (by norm_num) (by norm_num), hprev 2 (by norm_num) (by norm_num),
        hprev 3 (by norm_num) (by norm_num)]
    · simp [retryLoop, attemptNumbers, MAX_RETRIES, htime,
        hprev 1 (by norm_num) (by norm_num), hprev 2 (by norm_num) (by norm_num),
        hprev 3 (by norm_num) (by norm_num), hprev 4 (by norm_num) (by norm_num)]
  refine ⟨?_, ?_, ?_⟩
  · unfold find_init_data_with_retries
    rw [hloop]
  · unfold navAttemptsUsed
    rw [hloop]
  · unfold collect_raw_data find_init_data_with_retries
    rw [hloop]
    simp

theorem claim3_witness :
    navTimeout 1 = AttemptOutcome.timeout ∧
    find_init_data_with_retries navTimeout = Option.none ∧
    navAttemptsUsed navTimeout = 1 ∧
    collect_raw_data navTimeout [[wAd2]] = [[wAd2]] :=
  ⟨rfl,
   (claim3_timeout_stops_retries navTimeout [[wAd2]] 1 (le_refl 1) (by decide)
     (fun a ha hlt => absurd hlt (Nat.not_lt.mpr ha)) rfl).1,
   (claim3_timeout_stops_retries navTimeout [[wAd2]] 1 (le_refl 1) (by decide)
     (fun a ha hlt => absurd hlt (Nat.not_lt.mpr ha)) rfl).2.1,
   (claim3_timeout_stops_retries navTimeout [[wAd2]] 1 (le_refl 1) (by decide)
     (fun a ha hlt => absurd hlt (Nat.not_lt.mpr ha)) rfl).2.2⟩

lemma retryLoop_attempts_le {α : Type} (nav : Nat → AttemptOutcome α)
    (l : List Nat) : (retryLoop nav l).2 ≤ l.length := by
  induction l with
  | nil => exact Nat.le_refl 0
  | cons attempt rest ih =>
    unfold retryLoop
    cases nav attempt with
    | success d => exact Nat.succ_le_succ (Nat.zero_le _)
    | timeout => exact Nat.succ_le_succ (Nat.zero_le _)
    | unexpectedError => exact Nat.succ_le_succ (Nat.zero_le _)
    | initDataNotFound =>
      dsimp only
      split
      · exact Nat.succ_le_succ ih
      · exact Nat.succ_le_succ (Nat.zero_le _)

/-- Claim C7: the retry controller makes at most `MAX_RETRIES = 5`
navigation attempts; when extraction fails with "marker not found" on all 5
attempts it yields no initial data (`none`, without raising) after exactly
5 attempts, and the run proceeds — the raw dataset is exactly the response
capture of the interceptor, and an empty capture yields an empty raw
dataset without a crash (`collect_raw_data` is total); and an unexpected
extraction failure at *any* attempt `k` the loop reaches (all earlier
attempts having failed retryably with "marker not found") returns
immediately after exactly `k` attempts, consuming none of the remaining
retries.  (The fixed inter-attempt delay is real time and is not
modelled.) -/
theorem claim7_retry_budget (nav : Nat → AttemptOutcome (List (List RawAd)))
    (cap : List (List RawAd)) :
    navAttemptsUsed nav ≤ MAX_RETRIES ∧
    ((∀ a, 1 ≤ a → a ≤ MAX_RETRIES → nav a = AttemptOutcome.initDataNotFound) →
      find_init_data_with_retries nav = Option.none ∧
      navAttemptsUsed nav = MAX_RETRIES ∧
      collect_raw_data nav cap = cap ∧
      collect_raw_data nav [] = []) ∧
    (∀ k, 1 ≤ k → k ≤ MAX_RETRIES →
      (∀ a, 1 ≤ a → a < k → nav a = AttemptOutcome.initDataNotFound) →
      nav k = AttemptOutcome.unexpectedError →
      find_init_data_with_retries nav = Option.none ∧
      navAttemptsUsed nav = k) := by
  refine ⟨retryLoop_attempts_le nav attemptNumbers, ?_, ?_⟩
  · intro h
    have hloop : retryLoop nav attemptNumbers = (Option.none, 5) := by
      simp [retryLoop, attemptNumbers, MAX_RETRIES,
        h 1 (by decide) (by decide), h 2 (by decide) (by decide),
        h 3 (by decide) (by decide), h 4 (by decide) (by decide),
        h 5 (by decide) (by decide)]
    refine ⟨?_, ?_, ?_, ?_⟩ <;>
      simp [find_init_data_with_retries, navAttemptsUsed, collect_raw_data,
        hloop, MAX_RETRIES]
  · intro k h1 h5 hprev herr
    have hloop : retryLoop nav attemptNumbers = (Option.none, k) := by
      unfold MAX_RETRIES at h5
      interval_cases k
      · simp [retryLoop, attemptNumbers, herr]
      · simp [retryLoop, attemptNumbers, MAX_RETRIES, herr,
          hprev 1 (by norm_num) (by norm_num)]
      · simp [retryLoop, attemptNumbers, MAX_RETRIES, herr,
          hprev 1 (by norm_num) (by norm_num), hprev 2 (by norm_num) (by norm_num)]
      · simp [retryLoop, attemptNumbers, MAX_RETRIES, herr,
          hprev 1 (by norm_num) (by norm_num), hprev 2 (by norm_num) (by norm_num),
          hprev 3 (by norm_num) (by norm_num)]
      · simp [retryLoop, attemptNumbers, MAX_RETRIES, herr,
          hprev 1 (by norm_num) (by norm_num), hprev 2 (by norm_num) (by norm_num),
          hprev 3 (by norm_num) (by norm_num), hprev 4 (by norm_num) (by norm_num)]
    exact ⟨by simp [find_init_data_with_retries, hloop],
           by simp [navAttemptsUsed, hloop]⟩

/-- Navigation whose extraction never finds the marker object. -/
def navNotFound : Nat → AttemptOutcome (List (List RawAd)) :=
  fun _ => AttemptOutcome.initDataNotFound

/-- Navigation whose extraction fails with "marker not found" on attempts 1
and 2 and then with an unexpected error on attempt 3. -/
def navUnexpectedAt3 : Nat → AttemptOutcome (List (List RawAd)) :=
  fun a => if a < 3 then AttemptOutcome.initDataNotFound
           else AttemptOutcome.unexpectedError

lemma vacd_length (l : List ParsedAd) :
    (validate_and_clean_data l).1.length + (validate_and_clean_data l).2.length
      = l.length := by
  induction l with
  | nil => rfl
  | cons ad rest ih =>
    unfold validate_and_clean_data
    cases validateAd ad with
    | ok v => simp only [List.length_cons]; omega
    | error e => simp only [List.length_cons]; omega

lemma vacd_mem_forward (l : List ParsedAd) :
    ∀ ad ∈ l,
      (∀ v, validateAd ad = Except.ok v → v ∈ (validate_and_clean_data l).1) ∧
      (∀ e, validateAd ad = Except.error e →
        (ad, e) ∈ (validate_and_clean_data l).2) := by
  induction l with
  | nil => intro ad had; simp at had
  | cons a rest ih =>
    intro ad had
    rcases List.mem_cons.mp had with had | had
    · subst had
      constructor
      · intro v hv
        unfold validate_and_clean_data
        rw [hv]
        exact List.mem_cons_self _ _
      · intro e he
        unfold validate_and_clean_data
        rw [he]
        exact List.mem_cons_self _ _
    · constructor
      · intro v hv
        unfold validate_and_clean_data
        cases validateAd a with
        | ok w => exact List.mem_cons_of_mem _ ((ih ad had).1 v hv)
        | error e => exact (ih ad had).1 v hv
      · intro e he
        unfold validate_and_clean_data
        cases validateAd a with
        | ok w => exact (ih ad had).2 e he
        | error e0 => exact List.mem_cons_of_mem _ ((ih ad had).2 e he)

lemma vacd_invalid_sound (l : List ParsedAd) :
    ∀ pr ∈ (validate_and_clean_data l).2,
      pr.1 ∈ l ∧ validateAd pr.1 = Except.error pr.2 := by
  induction l with
  | nil => intro pr hpr; simp [validate_and_clean_data] at hpr
  | cons a rest ih =>
    intro pr hpr
    unfold validate_and_clean_data at hpr
    cases h : validateAd a with
    | ok v =>
      rw [h] at hpr
      exact ⟨List.mem_cons_of_mem _ (ih pr hpr).1, (ih pr hpr).2⟩
    | error e =>
      rw [h] at hpr
      rcases List.mem_cons.mp hpr with hpr | hpr
      · subst hpr
        exact ⟨List.mem_cons_self _ _, h⟩
      · exact ⟨List.mem_cons_of_mem _ (ih pr hpr).1, (ih pr hpr).2⟩

lemma vacd_valid_sound (l : List ParsedAd) :
    ∀ v ∈ (validate_and_clean_data l).1,
      ∃ ad ∈ l, validateAd ad = Except.ok v := by
  induction l with
  | nil => intro v hv; simp [validate_and_clean_data] at hv
  | cons a rest ih =>
    intro v hv
    unfold validate_and_clean_data at hv
    cases h : validateAd a with
    | ok w =>
      rw [h] at hv
      rcases List.mem_cons.mp hv with hv | hv
      · subst hv
        exact ⟨a, List.mem_cons_self _ _, h⟩
      · obtain ⟨ad, hmem, hok⟩ := ih v hv
        exact ⟨ad, List.mem_cons_of_mem _ hmem, hok⟩
    | error e =>
      rw [h] at hv
      obtain ⟨ad, hmem, hok⟩ := ih v hv
      exact ⟨ad, List.mem_cons_of_mem _ hmem, hok⟩

/-- Claim C6: `validate_and_clean_data` partitions its input — the sizes of
the valid output and the invalid-records report add up to the input length;
each input record lands in the valid list (as its validated form) when the
`ValidatedAd` construction succeeds and in the invalid report (paired with
its original input and the reason string) when it fails; every invalid
entry really is a failing input record and every valid entry comes from a
succeeding one.  Acceptance is all-or-nothing per record: `validateAd`
returns either a whole accepted record or only an error. -/
theorem claim6_validation_partitions (l : List ParsedAd) :
    ((validate_and_clean_data l).1.length
        + (validate_and_clean_data l).2.length = l.length) ∧
    (∀ ad ∈ l,
      (∀ v, validateAd ad = Except.ok v → v ∈ (validate_and_clean_data l).1) ∧
      (∀ e, validateAd ad = Except.error e →
        (ad, e) ∈ (validate_and_clean_data l).2)) ∧
    (∀ pr ∈ (validate_and_clean_data l).2,
      pr.1 ∈ l ∧ validateAd pr.1 = Except.error pr.2) ∧
    (∀ v ∈ (validate_and_clean_data l).1,
      ∃ ad ∈ l, validateAd ad = Except.ok v) :=
  ⟨vacd_length l, vacd_mem_forward l, vacd_invalid_sound l, vacd_valid_sound l⟩

/-- A candidate rejected by validation (`start_date_ts` is null, but the
pydantic field is a required `int`). -/
def vBadRec : ParsedAd :=
  { ad_id := "bad", is_active := true, start_date_ts := Option.none,
    end_date_ts := Option.none, total_active_time_sec := Option.none,
    ad_group_id := Option.none, grouped_ads_count := 0,
    display_format := "IMAGE", media_mix := MediaMix.image,
    ad_text := "", ad_lang_code := "undetected" }

theorem claim6_witness :
    vBadRec ∈ [wRec2, vBadRec] ∧
    validateAd vBadRec = Except.error "start_date_ts must be an integer" ∧
    (vBadRec, "start_date_ts must be an integer")
      ∈ (validate_and_clean_data [wRec2, vBadRec]).2 :=
  ⟨by decide, rfl,
   ((claim6_validation_partitions [wRec2, vBadRec]).2.1 vBadRec (by decide)).2
     "start_date_ts must be an integer" rfl⟩

theorem claim7_witness :
    (find_init_data_with_retries navNotFound = Option.none ∧
     navAttemptsUsed navNotFound = MAX_RETRIES ∧
     collect_raw_data navNotFound [[wAd1]] = [[wAd1]] ∧
     collect_raw_data navNotFound [] = []) ∧
    (navUnexpectedAt3 3 = AttemptOutcome.unexpectedError ∧
     find_init_data_with_retries navUnexpectedAt3 = Option.none ∧
     navAttemptsUsed navUnexpectedAt3 = 3) :=
  ⟨(claim7_retry_budget navNotFound [[wAd1]]).2.1 (fun _ _ _ => rfl),
   ⟨rfl,
    ((claim7_retry_budget navUnexpectedAt3 []).2.2 3 (by decide) (by decide)
      (fun a h1 h2 => by simp [navUnexpectedAt3, h2]) rfl).1,
    ((claim7_retry_budget navUnexpectedAt3 []).2.2 3 (by decide) (by decide)
      (fun a h1 h2 => by simp [navUnexpectedAt3, h2]) rfl).2⟩⟩
